import Mathlib

/-!
Verification of the slider-captcha subsystem of `login_with_fingerprint.js`
(TikTok auto-uploader).  The JavaScript source is shallowly embedded below:

* `humanLikeDrag`      → `easeR`, `dragJitterX/Y`, `dragTrajPoint`,
                         `humanLikeDragCmds`, `dragStepsOf` and the
                         pointer-state execution model `runDrag`/`runDragFailAt`;
* `handleSlideCaptcha` → the network listener `responseListener` /
                         `runObserver`, the 25-second timer `timerFire`,
                         and the post-solve branch `slideDecision`;
* `loginWithCredentials` (captcha call site) → `callerAfterCaptcha`;
* `solveCaptcha` (captcha_solver.js) → the validation / payload phase
                         `solvePrep` with its network trace
                         `solveNetworkCalls`, and the POST / parse phase
                         `postSolve` over an abstract `ServiceBehavior`.

Coordinates are rationals (`ℚ`) where the code is algebraic, and reals
(`ℝ`) for the trajectory, whose lateral-noise envelope is `Math.sin`.
-/

/-- A 2-D point `{x, y}` as used by `page.mouse` and `humanLikeDrag`. -/
structure Pt (α : Type) where
  x : α
  y : α
deriving DecidableEq, Repr

/-- A bounding box as returned by Playwright `boundingBox()`:
`{x, y, width, height}`. -/
structure Box where
  x : ℚ
  y : ℚ
  width : ℚ
  height : ℚ
deriving DecidableEq, Repr

/-- The JSON object returned by the solving service and consumed by
`handleSlideCaptcha`: an optional numeric offset `x`, an optional status
string `error` (the code tests `solution.error === "0"`), and an optional
`errorMsg` (the solver client tests `result.errorMsg`).  A missing field is
`none` (JS `undefined`). -/
structure SolveResult where
  x : Option ℚ
  error : Option String
  errorMsg : Option String
deriving DecidableEq, Repr

/- ------------------------------------------------------------------
Challenge Observer: `handleSlideCaptcha`, lines 103–182.
------------------------------------------------------------------ -/

/-- The needle of `url.includes('https://p16')`. -/
def hostNeedle : String := "https://p16"

/-- `p.isPrefixAt s`: the character list `p` occurs at the head of `s`. -/
def beginsList : List Char → List Char → Bool
  | [], _ => true
  | _ :: _, [] => false
  | a :: p, b :: s => a == b && beginsList p s

/-- `hasSub p s`: the character list `p` occurs contiguously inside `s`
(JavaScript `String.prototype.includes`). -/
def hasSub (p : List Char) : List Char → Bool
  | [] => beginsList p []
  | b :: s => beginsList p (b :: s) || hasSub p s

/-- `url.includes('https://p16')` — the filter applied to every network
response URL by the captcha-image listener. -/
def matchesHost (url : String) : Bool :=
  hasSub hostNeedle.toList url.toList

/-- The mutable state of the listener closure: the `captchaUrls` buffer and
whether the `response` listener is still attached. -/
structure ObserverState where
  urls : List String
  listening : Bool
deriving DecidableEq, Repr

/-- One invocation of `responseListener` (lines 105–171) on a response with
the given URL, restricted to its synchronous buffer/unsubscribe effect:
if the listener is attached and the URL matches, push it; when the buffer
reaches exactly 2, `page.removeListener` fires synchronously.  If the
listener has been removed the event has no effect. -/
def responseListener (st : ObserverState) (url : String) : ObserverState :=
  if st.listening && matchesHost url then
    let urls := st.urls ++ [url]
    if urls.length = 2 then ⟨urls, false⟩ else ⟨urls, st.listening⟩
  else st

/-- Run the listener over a whole arrival-ordered sequence of response URLs,
starting from the freshly armed state (empty buffer, attached). -/
def runObserver (events : List String) : ObserverState :=
  events.foldl responseListener ⟨[], true⟩

/-- How the `handleSlideCaptcha` promise settles. -/
inductive Settlement
  | resolved (solved : Bool)
  | rejected (msg : String)
deriving DecidableEq, Repr

/-- The 25-second `setTimeout` body (lines 176–182): always remove the
listener; resolve with `false` (benign "no pair") only when fewer than two
captcha URLs were buffered, otherwise settle nothing. -/
def timerFire (st : ObserverState) : ObserverState × Option Settlement :=
  (⟨st.urls, false⟩, if st.urls.length < 2 then some (.resolved false) else none)

/-- How `loginWithCredentials` (lines 245–253) interprets the settled
captcha promise: `false` logs "Captcha was not detected …, proceeding";
`true` proceeds as solved; a rejection is caught, logged, and the login
flow continues.  No settlement aborts the login flow. -/
inductive CallerView
  | noChallengeProceed
  | solvedProceed
  | errorLoggedProceed
deriving DecidableEq, Repr

/-- The caller's branch on the captcha promise settlement. -/
def callerAfterCaptcha : Settlement → CallerView
  | .resolved false => .noChallengeProceed
  | .resolved true => .solvedProceed
  | .rejected _ => .errorLoggedProceed

/- ------------------------------------------------------------------
Orchestrator branch after the solver returns: lines 137–165.
------------------------------------------------------------------ -/

/-- What the handler does once `solveCaptcha` has returned `sol` (or `none`
for a falsy value), given the background image box and the slider handle
box (or `none` when `boundingBox()` returned null). -/
inductive SlideDecision
  | dragTo (start : Pt ℚ) (target : Pt ℚ)
  | rejectNoSolution
  | rejectNoHandleBox
deriving DecidableEq, Repr

/-- Lines 137–165: the guard
`solution && solution.error === "0" && typeof solution.x !== 'undefined'`;
on success the drag runs from the handle-box centre to
`{x: bgBox.x + solution.x, y: startY}`; otherwise the promise is rejected
with "Failed to get a valid solution" (or, inside the guarded branch, with
"Could not get bounding box for slider" when the handle box is null). -/
def slideDecision (sol : Option SolveResult) (bgBox : Box)
    (handleBox : Option Box) : SlideDecision :=
  match sol with
  | none => .rejectNoSolution
  | some s =>
    if s.error = some "0" ∧ s.x.isSome then
      match handleBox with
      | none => .rejectNoHandleBox
      | some hb =>
        .dragTo ⟨hb.x + hb.width / 2, hb.y + hb.height / 2⟩
          ⟨bgBox.x + s.x.getD 0, hb.y + hb.height / 2⟩
    else .rejectNoSolution

/-- The success guard of line 137 as a Boolean. -/
def validSolution : Option SolveResult → Bool
  | none => false
  | some s => (s.error == some "0") && s.x.isSome

/-- Whether a decision invokes the Motion Synthesizer (`humanLikeDrag`). -/
def isDrag : SlideDecision → Bool
  | .dragTo _ _ => true
  | _ => false

/- ------------------------------------------------------------------
Solver Client: `solveCaptcha` in captcha_solver.js, lines 318–411.
------------------------------------------------------------------ -/

/-- The destructured `options` argument of `solveCaptcha`; `none` stands
for a missing (JS `undefined`) field. -/
structure SolveOptions where
  captchaType : String
  backgroundUrl : Option String
  puzzleUrl : Option String
  imageBase64 : Option String
  width : Option Nat
  height : Option Nat
  question : Option String
deriving DecidableEq, Repr

/-- The validation and payload-building phase of `solveCaptcha` (the
`switch` of lines 323–382): returns the list of image-fetch network calls
(`urlToB64`) performed, paired with either the chosen endpoint or the
thrown error message.  In the source, each `case` throws on a missing
required field *before* any `urlToB64` call is awaited. -/
def solvePrep (o : SolveOptions) : List String × Except String String :=
  if o.captchaType = "whirl" then
    match o.backgroundUrl, o.puzzleUrl, o.width, o.height with
    | some bg, some pz, some _, some _ => ([bg, pz], .ok "/whirl")
    | _, _, _, _ => ([], .error "For whirl captcha, all params are required.")
  else if o.captchaType = "puzzle" then
    match o.backgroundUrl, o.puzzleUrl, o.width, o.height with
    | some bg, some pz, some _, some _ => ([bg, pz], .ok "/slide")
    | _, _, _, _ => ([], .error "For puzzle captcha, all params are required.")
  else if o.captchaType = "3d" then
    match o.imageBase64, o.width, o.height with
    | some _, some _, some _ => ([], .ok "/3d")
    | _, _, _ => ([], .error "For 3d captcha, all params are required.")
  else if o.captchaType = "icon" then
    match o.imageBase64, o.question, o.width, o.height with
    | some _, some _, some _, some _ => ([], .ok "/icon")
    | _, _, _, _ => ([], .error "For icon captcha, all params are required.")
  else ([], .error "Unsupported captcha type")

/-- All network calls attempted by `solveCaptcha` on the given options:
the image fetches of the preparation phase, followed (when preparation
succeeds) by the POST to the solving-service endpoint. -/
def solveNetworkCalls (o : SolveOptions) : List String :=
  match solvePrep o with
  | (fetches, .ok ep) => fetches ++ ["POST " ++ ep]
  | (fetches, .error _) => fetches

/-- Claim-side predicate (spec §4.2 table): the request is missing a field
its kind requires — whirl/puzzle: background, overlay, width, height;
the 3-D kind: background image, width, height; icon: background image,
width, height, question. -/
def requiredMissing (o : SolveOptions) : Bool :=
  if o.captchaType = "whirl" then
    o.backgroundUrl.isNone || o.puzzleUrl.isNone || o.width.isNone || o.height.isNone
  else if o.captchaType = "puzzle" then
    o.backgroundUrl.isNone || o.puzzleUrl.isNone || o.width.isNone || o.height.isNone
  else if o.captchaType = "3d" then
    o.imageBase64.isNone || o.width.isNone || o.height.isNone
  else if o.captchaType = "icon" then
    o.imageBase64.isNone || o.width.isNone || o.height.isNone || o.question.isNone
  else false

/-- Whether an `Except` result is a success. -/
def exOk {ε α : Type} : Except ε α → Bool
  | .ok _ => true
  | .error _ => false

/-- Abstract behaviour of the solving service for one POST:
either the transport fails (`unreachable`), or a response arrives with an
HTTP-success flag `ok` (`response.ok`, i.e. 2xx) and a body that either
parses to a `SolveResult` (`some`) or is malformed JSON (`none`). -/
inductive ServiceBehavior
  | unreachable
  | responds (ok : Bool) (body : Option SolveResult)
deriving DecidableEq, Repr

/-- The network phase of `solveCaptcha` (lines 387–410): a transport
failure throws; `await response.json()` throws on a malformed body; then
`if (!response.ok || result.errorMsg) throw`; otherwise the parsed result
is returned as a value — whatever its `x` and `error` fields hold. -/
def postSolve : ServiceBehavior → Except String SolveResult
  | .unreachable => .error "fetch failed"
  | .responds ok body =>
    match body with
    | none => .error "invalid json response body"
    | some r =>
      if !ok || r.errorMsg.isSome then .error "API request failed"
      else .ok r

/-- Claim-side predicate: the three throw conditions listed by the claim —
service unreachable, non-2xx status, or a payload carrying an explicit
error message. -/
def claimThrowCond : ServiceBehavior → Bool
  | .unreachable => true
  | .responds ok body =>
    !ok || (match body with
            | some r => r.errorMsg.isSome
            | none => false)

/-- Amended throw condition: additionally, a body that does not parse
(malformed payload) throws. -/
def amendThrowCond : ServiceBehavior → Bool
  | .unreachable => true
  | .responds ok body =>
    !ok || (match body with
            | some r => r.errorMsg.isSome
            | none => true)

/- ------------------------------------------------------------------
Motion Synthesizer: `humanLikeDrag`, lines 69–98.
------------------------------------------------------------------ -/

/-- Line 77: `const steps = 40 + Math.floor(Math.random() * 20)`, for a
drag from `s` to `e` with random draw `r ∈ [0,1)`.  The start and end
points are parameters of `humanLikeDrag` but do not enter the step count. -/
def dragStepsOf (_s _e : Pt ℚ) (r : ℚ) : ℤ :=
  40 + ⌊r * 20⌋

/-- Squared Euclidean distance between two points (to compare drag
distances). -/
def sqDist (p q : Pt ℚ) : ℚ :=
  (q.x - p.x) ^ 2 + (q.y - p.y) ^ 2

/-- Line 83: the cubic ease-in-out
`t < 0.5 ? 4*t*t*t : 1 - Math.pow(-2*t+2, 3)/2`. -/
noncomputable def easeR (t : ℝ) : ℝ :=
  if t < 1 / 2 then 4 * t ^ 3 else 1 - (-2 * t + 2) ^ 3 / 2

/-- Lines 88–89: the lateral jitter added to the x-coordinate at step `i`,
`(Math.random() - 0.5) * 4 * Math.sin(t * Math.PI)` with `t = i / steps`
and `rX i` the random draw of that step. -/
noncomputable def dragJitterX (rX : ℕ → ℝ) (steps i : ℕ) : ℝ :=
  (rX i - 1 / 2) * 4 * Real.sin ((i : ℝ) / (steps : ℝ) * Real.pi)

/-- Lines 81–92: the pointer position commanded at loop index `i` of the
drag from `s` to `e`: the eased interpolation plus the jitter of each
coordinate (`rX`, `rY` are the per-step random draws). -/
noncomputable def dragTrajPoint (s e : Pt ℝ) (rX rY : ℕ → ℝ)
    (steps i : ℕ) : Pt ℝ :=
  let t : ℝ := (i : ℝ) / (steps : ℝ)
  ⟨s.x + (e.x - s.x) * easeR t + dragJitterX rX steps i,
   s.y + (e.y - s.y) * easeR t + dragJitterX rY steps i⟩

/-- A pointer-driver primitive issued by `humanLikeDrag`. -/
inductive MouseCmd (α : Type)
  | move (p : Pt α)
  | down
  | up

/-- The full primitive sequence issued by `humanLikeDrag` for a drag from
`s` to `e` with `steps` loop steps: the initial coarse move to the start,
`mouse.down()`, the `steps + 1` eased-and-jittered moves of the loop
(indices `0 … steps`), and the final `mouse.up()`.  (The randomized sleeps
between primitives have no pointer-state effect and are not modelled.) -/
noncomputable def humanLikeDragCmds (s e : Pt ℝ) (rX rY : ℕ → ℝ)
    (steps : ℕ) : List (MouseCmd ℝ) :=
  MouseCmd.move s :: MouseCmd.down ::
    ((List.range (steps + 1)).map
      (fun i => MouseCmd.move (dragTrajPoint s e rX rY steps i))
     ++ [MouseCmd.up])

/-- Pointer button state (`true` = pressed) after one primitive. -/
def pointerAfter (d : Bool) : MouseCmd α → Bool
  | .down => true
  | .up => false
  | .move _ => d

/-- Final pointer button state when every primitive of the sequence
executes (the non-throwing exit path of `humanLikeDrag`). -/
def runDrag (cmds : List (MouseCmd α)) : Bool :=
  cmds.foldl pointerAfter false

/-- Pointer button state at the moment primitive number `k` (0-based)
throws: the first `k` primitives have executed, the exception then
propagates out of `humanLikeDrag`, which has no catch or finally, so no
further primitive — in particular no release — is issued. -/
def runDragFailAt (cmds : List (MouseCmd α)) (k : ℕ) : Bool :=
  (cmds.take k).foldl pointerAfter false

/-- Lines 124–130: the `solveCaptcha` call built from the observer buffer —
`captchaType: 'whirl'`, `backgroundUrl: captchaUrls[0]`,
`puzzleUrl: captchaUrls[1]`, and the computed width/height. -/
def observerSolveOptions (st : ObserverState) (w h : Nat) : SolveOptions :=
  ⟨"whirl", st.urls[0]?, st.urls[1]?, none, some w, some h, none⟩

/-- Concrete response-URL sequences used to instantiate the observer
theorems on closed inputs. -/
def eventsThreeMatches : List String :=
  ["https://p16-sign.example/bg", "https://other.example/css",
   "https://p16-sign.example/piece", "https://p16-sign.example/extra"]

/-- A sequence with a single matching response URL. -/
def eventsOneMatch : List String :=
  ["https://p16-sign.example/bg", "https://other.example/css"]

/-- A sequence with exactly two matching response URLs around a
non-matching one. -/
def eventsTwoMatches : List String :=
  ["https://p16-sign.example/bg", "https://other.example/css",
   "https://p16-sign.example/piece"]

/-- A concrete solver result with a non-"0" error code and no offset. -/
def rejectedResult : SolveResult := ⟨none, some "5", none⟩

/-- A concrete whirl request missing its background image. -/
def whirlMissingBackground : SolveOptions :=
  ⟨"whirl", none, some "https://p16-sign.example/piece", none,
   some 348, some 40, none⟩

/-- A degenerate bounding box used to instantiate theorems. -/
def boxZero : Box := ⟨0, 0, 0, 0⟩

/- ==================================================================
Theorems.
================================================================== -/

/-- Once the listener has been removed, further response events have no
effect on the observer state. -/
theorem responseListener_stopped (l : List String) (st : ObserverState)
    (h : st.listening = false) : l.foldl responseListener st = st := by
  induction l with
  | nil => rfl
  | cons e l ih =>
    have hstep : responseListener st e = st := by
      simp [responseListener, h]
    rw [List.foldl_cons, hstep, ih]

/-- Invariant of the listener fold: starting attached with fewer than two
buffered URLs, the final buffer is the first two matching URLs (of the
buffer already held plus the arriving ones), and the listener is still
attached exactly when fewer than two have ever matched. -/
theorem observer_fold (l : List String) : ∀ st : ObserverState,
    st.listening = true → st.urls.length < 2 →
    (l.foldl responseListener st).urls
        = (st.urls ++ l.filter matchesHost).take 2 ∧
    ((l.foldl responseListener st).listening = true
        ↔ (st.urls ++ l.filter matchesHost).length < 2) := by
  induction l with
  | nil =>
    intro st h1 h2
    simp only [List.foldl_nil, List.filter_nil, List.append_nil]
    exact ⟨(List.take_of_length_le (Nat.le_of_lt h2)).symm, by simp [h1, h2]⟩
  | cons e l ih =>
    intro st h1 h2
    rw [List.foldl_cons]
    by_cases hm : matchesHost e
    · have hstep : responseListener st e =
          if (st.urls ++ [e]).length = 2 then ⟨st.urls ++ [e], false⟩
          else ⟨st.urls ++ [e], st.listening⟩ := by
        simp [responseListener, h1, hm]
      by_cases h2' : (st.urls ++ [e]).length = 2
      · rw [hstep, if_pos h2',
          responseListener_stopped l ⟨st.urls ++ [e], false⟩ rfl]
        have harr : st.urls ++ (e :: l).filter matchesHost
            = (st.urls ++ [e]) ++ l.filter matchesHost := by
          rw [List.filter_cons_of_pos hm, List.append_cons]
        constructor
        · rw [harr, List.take_append_eq_append_take, ← h2', List.take_length,
            h2']
          simp
        · constructor
          · intro hfalse; exact absurd hfalse (by simp)
          · intro hlen
            rw [harr, List.length_append, h2'] at hlen
            omega
      · have hlt : (st.urls ++ [e]).length < 2 := by
          rw [List.length_append] at h2' ⊢
          simp only [List.length_singleton] at h2' ⊢
          omega
        rw [hstep, if_neg h2']
        have hres := ih ⟨st.urls ++ [e], st.listening⟩ h1 hlt
        rw [List.filter_cons_of_pos hm,
          show st.urls ++ e :: l.filter matchesHost
              = (st.urls ++ [e]) ++ l.filter matchesHost from by simp]
        exact hres
    · have hstep : responseListener st e = st := by
        simp [responseListener, hm]
      rw [hstep, List.filter_cons_of_neg (by simp [hm])]
      exact ih st h1 h2

/-- The armed observer, run on a whole event sequence, from the initial
state. -/
theorem runObserver_spec (events : List String)
    (h : 2 ≤ (events.filter matchesHost).length) :
    (runObserver events).urls = (events.filter matchesHost).take 2 ∧
    (runObserver events).listening = false := by
  have H := observer_fold events ⟨[], true⟩ rfl (by simp)
  simp only [List.nil_append] at H
  refine ⟨H.1, ?_⟩
  cases hb : (runObserver events).listening
  · rfl
  · exact absurd (H.2.mp hb) (by omega)

/-- C3: for every response sequence with at least two matching URLs, the
image pair is formed from the first two matching responses in arrival
order — the solve request's `backgroundUrl` is the first match and its
`puzzleUrl` the second — the buffer is exactly those first two matches,
and the subscription has been torn down (`listening = false`), so all
later matching responses are ignored. -/
theorem C3_pair_is_first_two (events : List String) (w h : Nat)
    (hge : 2 ≤ (events.filter matchesHost).length) :
    (observerSolveOptions (runObserver events) w h).backgroundUrl
        = (events.filter matchesHost)[0]? ∧
    (observerSolveOptions (runObserver events) w h).puzzleUrl
        = (events.filter matchesHost)[1]? ∧
    (runObserver events).urls = (events.filter matchesHost).take 2 ∧
    (runObserver events).listening = false := by
  obtain ⟨hu, hl⟩ := runObserver_spec events hge
  refine ⟨?_, ?_, hu, hl⟩
  · simp [observerSolveOptions, hu, List.getElem?_take]
  · simp [observerSolveOptions, hu, List.getElem?_take]

/-- Witness for C3 on a closed event sequence with three matching URLs. -/
theorem C3_witness :
    2 ≤ (eventsThreeMatches.filter matchesHost).length ∧
    ((observerSolveOptions (runObserver eventsThreeMatches) 348 40).backgroundUrl
        = (eventsThreeMatches.filter matchesHost)[0]? ∧
     (observerSolveOptions (runObserver eventsThreeMatches) 348 40).puzzleUrl
        = (eventsThreeMatches.filter matchesHost)[1]? ∧
     (runObserver eventsThreeMatches).urls
        = (eventsThreeMatches.filter matchesHost).take 2 ∧
     (runObserver eventsThreeMatches).listening = false) :=
  ⟨by decide, C3_pair_is_first_two eventsThreeMatches 348 40 (by decide)⟩

/-- C4: if fewer than two matching image URLs arrive before the 25-second
timer fires, the timer removes the listener and resolves the attempt with
the benign value `false` ("no pair", not a rejection), and the caller then
proceeds with the login flow, treating the attempt as
no-challenge-detected rather than a failure. -/
theorem C4_timeout_benign (events : List String)
    (hlt : (events.filter matchesHost).length < 2) :
    (timerFire (runObserver events)).2 = some (Settlement.resolved false) ∧
    (timerFire (runObserver events)).1.listening = false ∧
    callerAfterCaptcha (Settlement.resolved false)
        = CallerView.noChallengeProceed := by
  have H := observer_fold events ⟨[], true⟩ rfl (by simp)
  simp only [List.nil_append] at H
  have h1 : (runObserver events).urls = (events.filter matchesHost).take 2 :=
    H.1
  have hu : (runObserver events).urls.length < 2 := by
    rw [h1, List.take_of_length_le (Nat.le_of_lt hlt)]
    exact hlt
  exact ⟨by simp [timerFire, hu], rfl, rfl⟩

/-- Witness for C4 on a closed event sequence with one matching URL. -/
theorem C4_witness :
    (eventsOneMatch.filter matchesHost).length < 2 ∧
    ((timerFire (runObserver eventsOneMatch)).2
        = some (Settlement.resolved false) ∧
     (timerFire (runObserver eventsOneMatch)).1.listening = false ∧
     callerAfterCaptcha (Settlement.resolved false)
        = CallerView.noChallengeProceed) :=
  ⟨by decide, C4_timeout_benign eventsOneMatch (by decide)⟩

/-- C10: once two matching responses have been observed, the timer can no
longer settle the attempt as "no pair": the buffer holds two URLs, so the
timer's guarded resolution yields nothing, and the listener was already
removed when the second match arrived. -/
theorem C10_timer_disarmed (events : List String)
    (hge : 2 ≤ (events.filter matchesHost).length) :
    (timerFire (runObserver events)).2 = none ∧
    (runObserver events).listening = false := by
  obtain ⟨hu, hl⟩ := runObserver_spec events hge
  have hlen : (runObserver events).urls.length = 2 := by
    rw [hu, List.length_take]
    omega
  exact ⟨by simp [timerFire, hlen], hl⟩

/-- Witness for C10 on a closed event sequence with two matching URLs. -/
theorem C10_witness :
    2 ≤ (eventsTwoMatches.filter matchesHost).length ∧
    ((timerFire (runObserver eventsTwoMatches)).2 = none ∧
     (runObserver eventsTwoMatches).listening = false) :=
  ⟨by decide, C10_timer_disarmed eventsTwoMatches (by decide)⟩

/-- C1: for every solver result with error code "0" and offset `xv`, and
every background box, the absolute horizontal drag target computed by the
handler is `bgBox.x + xv` (the drag starts at the handle-box centre and
keeps its y-coordinate). -/
theorem C1_absolute_target (xv : ℚ) (em : Option String) (bg hb : Box) :
    slideDecision (some ⟨some xv, some "0", em⟩) bg (some hb) =
      SlideDecision.dragTo ⟨hb.x + hb.width / 2, hb.y + hb.height / 2⟩
        ⟨bg.x + xv, hb.y + hb.height / 2⟩ := by
  simp [slideDecision]

/-- C2: the drag is invoked exactly when the solver result passes the
line-137 guard (error code "0" and offset present) and the handle box is
available; whenever the guard fails, the handler rejects the attempt
("Failed to get a valid solution") and never invokes the drag. -/
theorem C2_drag_gate (sol : Option SolveResult) (bg : Box)
    (hb : Option Box) :
    isDrag (slideDecision sol bg hb) = (validSolution sol && hb.isSome) ∧
    (validSolution sol = false →
      slideDecision sol bg hb = SlideDecision.rejectNoSolution) := by
  cases sol with
  | none => simp [slideDecision, validSolution, isDrag]
  | some s =>
    by_cases hc : s.error = some "0" ∧ s.x.isSome
    · have hv : validSolution (some s) = true := by
        simp [validSolution, hc.1, hc.2]
      cases hb with
      | none => simp [slideDecision, isDrag, hc, hv]
      | some b => simp [slideDecision, isDrag, hc, hv]
    · have hv : validSolution (some s) = false := by
        rcases Decidable.not_and_iff_or_not.mp hc with h | h
        · simp [validSolution, h]
        · simp [validSolution, h]
      simp [slideDecision, isDrag, hc, hv]

/-- Witness for C2: the concrete rejected result (error "5", no offset)
yields a rejection, not a drag. -/
theorem C2_witness :
    slideDecision (some rejectedResult) boxZero (some boxZero)
        = SlideDecision.rejectNoSolution :=
  (C2_drag_gate (some rejectedResult) boxZero (some boxZero)).2 (by decide)

/-- When the preparation phase throws, `solveCaptcha` attempts no POST:
its network calls are exactly the image fetches of the preparation
phase. -/
theorem solveNetworkCalls_of_err (o : SolveOptions)
    (h : exOk (solvePrep o).2 = false) :
    solveNetworkCalls o = (solvePrep o).1 := by
  unfold solveNetworkCalls
  rcases hp : solvePrep o with ⟨f, r⟩
  cases r with
  | ok ep => rw [hp] at h; simp [exOk] at h
  | error m => rfl

/-- A request missing a kind-required field makes the preparation phase
throw without attempting a single image fetch. -/
theorem solvePrep_missing_field (o : SolveOptions)
    (hm : requiredMissing o = true) :
    (solvePrep o).1 = [] ∧ exOk (solvePrep o).2 = false := by
  rcases o with ⟨ct, bg, pz, ib, w, hh, q⟩
  simp only [requiredMissing] at hm
  unfold solvePrep
  split_ifs at hm ⊢ with h1 h2 h3 h4
  · rcases bg with _ | bg <;> rcases pz with _ | pz <;>
      rcases w with _ | w <;> rcases hh with _ | hh <;>
      simp_all [exOk]
  · rcases bg with _ | bg <;> rcases pz with _ | pz <;>
      rcases w with _ | w <;> rcases hh with _ | hh <;>
      simp_all [exOk]
  · rcases ib with _ | ib <;> rcases w with _ | w <;>
      rcases hh with _ | hh <;> simp_all [exOk]
  · rcases ib with _ | ib <;> rcases q with _ | q <;>
      rcases w with _ | w <;> rcases hh with _ | hh <;>
      simp_all [exOk]

/-- C8: for every solve request missing a field required by its kind
(whirl and puzzle: background, overlay, width, height; the 3-D kind:
background image, width, height; icon: background image, width, height,
question), `solveCaptcha` fails before any network call — no image fetch
and no service POST is attempted. -/
theorem C8_fail_before_network (o : SolveOptions)
    (hm : requiredMissing o = true) :
    solveNetworkCalls o = [] ∧ exOk (solvePrep o).2 = false := by
  obtain ⟨h1, h2⟩ := solvePrep_missing_field o hm
  exact ⟨by rw [solveNetworkCalls_of_err o h2, h1], h2⟩

/-- Witness for C8: a whirl request with no background image attempts no
network call. -/
theorem C8_witness :
    requiredMissing whirlMissingBackground = true ∧
    (solveNetworkCalls whirlMissingBackground = [] ∧
     exOk (solvePrep whirlMissingBackground).2 = false) :=
  ⟨by decide, C8_fail_before_network whirlMissingBackground (by decide)⟩

/-- C9 counterexample: a reachable service returning HTTP success with a
body that does not parse as JSON makes `solveCaptcha` throw
(`response.json()` fails), although none of the three throw conditions
listed by the claim — unreachable, non-2xx, payload with an explicit
error message — holds there.  The claimed "throws if and only if" is
therefore false at this input. -/
theorem C9_counterexample :
    exOk (postSolve (ServiceBehavior.responds true none)) = false ∧
    claimThrowCond (ServiceBehavior.responds true none) = false := by
  exact ⟨rfl, rfl⟩

/-- C9 amended: `solveCaptcha` throws exactly when the service is
unreachable, the body is malformed, the status is non-2xx, or the parsed
payload carries an explicit `errorMsg`; a parsed 2xx payload without
`errorMsg` — in particular one lacking the offset `x` or carrying a
non-"0" error code — is returned to the caller as a value. -/
theorem C9_throw_conditions (b : ServiceBehavior) (r : SolveResult) :
    exOk (postSolve b) = !amendThrowCond b ∧
    (r.errorMsg = none →
      postSolve (ServiceBehavior.responds true (some r)) = Except.ok r) := by
  constructor
  · cases b with
    | unreachable => rfl
    | responds ok body =>
      cases body with
      | none => simp [postSolve, amendThrowCond, exOk]
      | some p =>
        by_cases hc : (!ok || p.errorMsg.isSome) = true
        · simp [postSolve, amendThrowCond, exOk, hc]
        · simp only [Bool.not_eq_true] at hc
          simp [postSolve, amendThrowCond, exOk, hc]
  · intro h
    simp [postSolve, h]

/-- Witness for C9: the concrete payload with error code "5" and no
offset is returned as a value. -/
theorem C9_witness :
    postSolve (ServiceBehavior.responds true (some rejectedResult))
        = Except.ok rejectedResult :=
  (C9_throw_conditions (ServiceBehavior.responds true (some rejectedResult))
    rejectedResult).2 (by decide)

/-- C7 counterexample: two drags of visibly different distances (100 vs
200 horizontal pixels), with the same random draw, get the same step
count — the step count of line 77 does not depend on the distance at
all, refuting "for two drags of different distances the (pre-bounding)
step count differs". -/
theorem C7_counterexample :
    sqDist ⟨0, 0⟩ ⟨100, 0⟩ ≠ sqDist ⟨0, 0⟩ ⟨200, 0⟩ ∧
    dragStepsOf ⟨0, 0⟩ ⟨100, 0⟩ (1 / 2) = dragStepsOf ⟨0, 0⟩ ⟨200, 0⟩ (1 / 2) := by
  refine ⟨?_, rfl⟩
  intro h
  simp [sqDist] at h

/-- C7 amended: for every drag, the step count is `40 + ⌊20·r⌋` for the
random draw `r ∈ [0,1)`, so it lies in the bounded randomized range
40–59 and is independent of the start and end points (hence of the
distance between them). -/
theorem C7_steps_range (s e : Pt ℚ) (r : ℚ) (h0 : 0 ≤ r) (h1 : r < 1) :
    40 ≤ dragStepsOf s e r ∧ dragStepsOf s e r ≤ 59 ∧
    ∀ s2 e2 : Pt ℚ, dragStepsOf s2 e2 r = dragStepsOf s e r := by
  unfold dragStepsOf
  refine ⟨?_, ?_, fun _ _ => rfl⟩
  · have hnn : (0 : ℤ) ≤ ⌊r * 20⌋ :=
      Int.floor_nonneg.mpr (mul_nonneg h0 (by norm_num))
    omega
  · have hlt : ⌊r * 20⌋ < 20 := by
      rw [Int.floor_lt]
      push_cast
      nlinarith
    omega

/-- Witness for C7 amended at the random draw 1/2. -/
theorem C7_witness :
    40 ≤ dragStepsOf ⟨0, 0⟩ ⟨100, 0⟩ (1 / 2) ∧
    dragStepsOf ⟨0, 0⟩ ⟨100, 0⟩ (1 / 2) ≤ 59 ∧
    ∀ s2 e2 : Pt ℚ,
      dragStepsOf s2 e2 (1 / 2) = dragStepsOf ⟨0, 0⟩ ⟨100, 0⟩ (1 / 2) :=
  C7_steps_range ⟨0, 0⟩ ⟨100, 0⟩ (1 / 2) (by norm_num) (by norm_num)

/-- The cubic ease-in-out evaluates to 0 at progress 0. -/
theorem easeR_zero : easeR 0 = 0 := by
  norm_num [easeR]

/-- The cubic ease-in-out evaluates to exactly 1 at progress 1. -/
theorem easeR_one : easeR 1 = 1 := by
  norm_num [easeR]

/-- C5: for every drag and every step count ≥ 1, the trajectory of
`humanLikeDrag` starts exactly at `start` (at `t = 0` both the ease value
and the jitter envelope `sin(t·π)` vanish), ends exactly at `end` (at
`t = 1` the ease value is 1 and `sin(π) = 0` kills the jitter), and at
every interior step whose random draw differs from 1/2 the lateral jitter
is non-zero. -/
theorem C5_trajectory (s e : Pt ℝ) (rX rY : ℕ → ℝ) (steps : ℕ)
    (hs : 1 ≤ steps) :
    dragTrajPoint s e rX rY steps 0 = s ∧
    dragTrajPoint s e rX rY steps steps = e ∧
    ∀ i : ℕ, 0 < i → i < steps → rX i ≠ 1 / 2 →
      dragJitterX rX steps i ≠ 0 := by
  have hstn : ((steps : ℝ)) ≠ 0 := Nat.cast_ne_zero.mpr (by omega)
  refine ⟨?_, ?_, ?_⟩
  · rcases s with ⟨sx, sy⟩
    rcases e with ⟨ex, ey⟩
    simp [dragTrajPoint, dragJitterX, easeR_zero]
  · rcases s with ⟨sx, sy⟩
    rcases e with ⟨ex, ey⟩
    simp only [dragTrajPoint, dragJitterX, div_self hstn, easeR_one,
      one_mul, Real.sin_pi, mul_zero, Pt.mk.injEq]
    constructor <;> ring
  · intro i hi0 hilt hr
    have hsp : (0 : ℝ) < (steps : ℝ) := by
      have : 0 < steps := by omega
      exact_mod_cast this
    have ht0 : (0 : ℝ) < (i : ℝ) / (steps : ℝ) :=
      div_pos (by exact_mod_cast hi0) hsp
    have ht1 : (i : ℝ) / (steps : ℝ) < 1 :=
      (div_lt_one hsp).mpr (by exact_mod_cast hilt)
    have hsin : 0 < Real.sin ((i : ℝ) / (steps : ℝ) * Real.pi) :=
      Real.sin_pos_of_pos_of_lt_pi (mul_pos ht0 Real.pi_pos)
        (by nlinarith [Real.pi_pos])
    unfold dragJitterX
    exact mul_ne_zero (mul_ne_zero (sub_ne_zero.mpr hr) (by norm_num))
      (ne_of_gt hsin)

/-- Witness for C5 with one loop step and zero random draws. -/
theorem C5_witness :
    1 ≤ 1 ∧
    (dragTrajPoint ⟨0, 0⟩ ⟨1, 2⟩ (fun _ : ℕ => (0 : ℝ))
        (fun _ : ℕ => (0 : ℝ)) 1 0 = ⟨0, 0⟩ ∧
     dragTrajPoint ⟨0, 0⟩ ⟨1, 2⟩ (fun _ : ℕ => (0 : ℝ))
        (fun _ : ℕ => (0 : ℝ)) 1 1 = ⟨1, 2⟩ ∧
     ∀ i : ℕ, 0 < i → i < 1 → (fun _ : ℕ => (0 : ℝ)) i ≠ 1 / 2 →
       dragJitterX (fun _ : ℕ => (0 : ℝ)) 1 i ≠ 0) :=
  ⟨le_refl 1, C5_trajectory ⟨0, 0⟩ ⟨1, 2⟩ (fun _ : ℕ => (0 : ℝ))
    (fun _ : ℕ => (0 : ℝ)) 1 (le_refl 1)⟩

/-- Folding the pointer state over a sequence that ends with a release
always ends released. -/
theorem foldl_pointerAfter_up {α : Type} (l : List (MouseCmd α)) (d : Bool) :
    (l ++ [MouseCmd.up]).foldl pointerAfter d = false := by
  rw [List.foldl_append]
  rfl

/-- C6 counterexample: in a concrete drag (40 loop steps), if the pointer
driver throws at primitive number 2 — the first loop move, issued right
after `mouse.down()` — the pointer is left pressed: `humanLikeDrag` has no
catch or finally, so `mouse.up()` is never issued on that exit path,
refuting "the pointer is left released on every exit path". -/
theorem C6_counterexample :
    2 < (humanLikeDragCmds ⟨0, 0⟩ ⟨1, 0⟩ (fun _ : ℕ => (0 : ℝ))
          (fun _ : ℕ => (0 : ℝ)) 40).length ∧
    runDragFailAt (humanLikeDragCmds ⟨0, 0⟩ ⟨1, 0⟩ (fun _ : ℕ => (0 : ℝ))
          (fun _ : ℕ => (0 : ℝ)) 40) 2 = true := by
  constructor
  · simp only [humanLikeDragCmds, List.length_cons, List.length_append,
      List.length_map, List.length_range, List.length_singleton]
    omega
  · rfl

/-- C6 amended: on the non-throwing exit path the drag always ends with
the pointer released (the sequence ends with `mouse.up()`), but when a
pointer-driver primitive fails mid-sequence the exception propagates
without any best-effort release: there is a failure point (the first loop
move, after the press) at which the pointer is left pressed. -/
theorem C6_release_normal_path_only (s e : Pt ℝ) (rX rY : ℕ → ℝ)
    (steps : ℕ) :
    runDrag (humanLikeDragCmds s e rX rY steps) = false ∧
    ∃ k, k < (humanLikeDragCmds s e rX rY steps).length ∧
      runDragFailAt (humanLikeDragCmds s e rX rY steps) k = true := by
  constructor
  · unfold runDrag humanLikeDragCmds
    rw [List.foldl_cons, List.foldl_cons]
    exact foldl_pointerAfter_up _ _
  · refine ⟨2, ?_, rfl⟩
    simp only [humanLikeDragCmds, List.length_cons, List.length_append,
      List.length_map, List.length_range, List.length_singleton]
    omega
